import Mathlib

/-!
# Verification of the pi-topd IPC layer

Shallow embedding of the two source files of the repository:

* `src/pitopd/server/publish_server.py` — class `PublishServer`
* `src/src/ptdm_request_server.py`      — class `RequestServer`

Python conventions used by the embedding:

* Python values flowing through the servers are modelled by `PyVal`
  (integers, booleans, strings, `None`); Python exceptions by `PyErr`,
  where `Except PyErr α` models a call that may raise.  The
  `except ValueError` / `except Exception` chain of the source is
  modelled by matching on the `PyErr` constructor.
* Leading underscores of Python private names are dropped
  (`_process_request` becomes `process_request`, `_continue` becomes
  `continue_flag`, and so on).
* The `Message` class lives in the external `pitop.common.ptdm` /
  `ptcommon.ptdm_message` package, which is not part of this repository;
  it is modelled from the spec (§4.1 MessageCodec, §6 wire format), see
  the doc comments below.
* Wire traffic is made observable: the publisher state carries the list
  `sent` of encoded strings written to the socket, and request
  processing returns the list of `CallEvent`s recording every
  invocation of a `CallbackClient` method.
-/

/-- Python primitive values handled by the IPC layer. -/
inductive PyVal where
  | int (n : Int)
  | bool (b : Bool)
  | str (s : String)
  | noneVal
deriving DecidableEq, Repr

/-- Python exceptions relevant to the two servers.  `valueError` is
`ValueError` (also raised by decode/validation failures of the message
codec), `typeError` is `TypeError`, `attributeError` is
`AttributeError`, `zmqError` is `zmq.error.ZMQError`, and `otherError`
stands for any other exception type. -/
inductive PyErr where
  | valueError
  | typeError
  | attributeError
  | zmqError
  | otherError (s : String)
deriving DecidableEq, Repr

/-- Python types used in `isinstance` checks and parameter schemas. -/
inductive PyType where
  | int
  | bool
  | str
deriving DecidableEq, Repr

/-- Python `isinstance`.  In Python `bool` is a subclass of `int`, so
`isinstance(True, int)` holds. -/
def isinstance : PyVal → PyType → Bool
  | .int _, .int => true
  | .bool _, .int => true
  | .bool _, .bool => true
  | .str _, .str => true
  | _, _ => false

/-- Python truthiness, used by `if is_pressed:` etc. -/
def pyTruthy : PyVal → Bool
  | .int n => n ≠ 0
  | .bool b => b
  | .str s => s ≠ ""
  | .noneVal => false

/-- Value of a decimal digit character. -/
def digitVal? (c : Char) : Option Nat :=
  if c.isDigit then some (c.toNat - '0'.toNat) else none

/-- Accumulate decimal digits; fails on any non-digit. -/
def digitsToNatAux : List Char → Nat → Option Nat
  | [], acc => some acc
  | c :: cs, acc =>
    match digitVal? c with
    | none => none
    | some d => digitsToNatAux cs (acc * 10 + d)

/-- Parse a non-empty all-digit character list. -/
def digitsToNat? : List Char → Option Nat
  | [] => none
  | c :: cs => digitsToNatAux (c :: cs) 0

/-- Modelled from the spec: the codec's coercion of a parameter token to
an integer (Python `int(token)`, which raises `ValueError` on failure),
here returning `none` on failure.  An optional sign followed by at least
one decimal digit. -/
def strToInt? (s : String) : Option Int :=
  match s.toList with
  | '-' :: cs => (digitsToNat? cs).map (fun n => -(n : Int))
  | '+' :: cs => (digitsToNat? cs).map (fun n => (n : Int))
  | cs => (digitsToNat? cs).map (fun n => (n : Int))

/-- The closed enumeration of message ids (spec §3, §6): `REQ_*`
requests, `RSP_*` responses (including the three error responses) and
`PUB_*` broadcast notifications, exactly those named by the two source
files. -/
inductive MsgId where
  | REQ_PING
  | REQ_GET_DEVICE_ID
  | REQ_GET_BRIGHTNESS
  | REQ_SET_BRIGHTNESS
  | REQ_INCREMENT_BRIGHTNESS
  | REQ_DECREMENT_BRIGHTNESS
  | REQ_BLANK_SCREEN
  | REQ_UNBLANK_SCREEN
  | REQ_GET_BATTERY_STATE
  | REQ_GET_PERIPHERAL_ENABLED
  | REQ_GET_SCREEN_BLANKING_TIMEOUT
  | REQ_SET_SCREEN_BLANKING_TIMEOUT
  | RSP_ERR_SERVER
  | RSP_ERR_MALFORMED
  | RSP_ERR_UNSUPPORTED
  | RSP_PING
  | RSP_GET_DEVICE_ID
  | RSP_GET_BRIGHTNESS
  | RSP_SET_BRIGHTNESS
  | RSP_INCREMENT_BRIGHTNESS
  | RSP_DECREMENT_BRIGHTNESS
  | RSP_BLANK_SCREEN
  | RSP_UNBLANK_SCREEN
  | RSP_GET_BATTERY_STATE
  | RSP_GET_PERIPHERAL_ENABLED
  | RSP_GET_SCREEN_BLANKING_TIMEOUT
  | RSP_SET_SCREEN_BLANKING_TIMEOUT
  | PUB_BRIGHTNESS_CHANGED
  | PUB_PERIPHERAL_CONNECTED
  | PUB_PERIPHERAL_DISCONNECTED
  | PUB_UNSUPPORTED_HARDWARE
  | PUB_SHUTDOWN_REQUESTED
  | PUB_REBOOT_REQUIRED
  | PUB_BATTERY_STATE_CHANGED
  | PUB_SCREEN_BLANKED
  | PUB_SCREEN_UNBLANKED
  | PUB_LOW_BATTERY_WARNING
  | PUB_CRITICAL_BATTERY_WARNING
  | PUB_LID_OPENED
  | PUB_LID_CLOSED
  | PUB_V3_BUTTON_UP_PRESSED
  | PUB_V3_BUTTON_UP_RELEASED
  | PUB_V3_BUTTON_DOWN_PRESSED
  | PUB_V3_BUTTON_DOWN_RELEASED
  | PUB_V3_BUTTON_SELECT_PRESSED
  | PUB_V3_BUTTON_SELECT_RELEASED
  | PUB_V3_BUTTON_CANCEL_PRESSED
  | PUB_V3_BUTTON_CANCEL_RELEASED
  | PUB_OLED_CONTROL_CHANGED
  | PUB_OLED_SPI_BUS_CHANGED
  | PUB_PITOPD_READY
deriving DecidableEq, Repr

/-- Modelled from the spec: the wire token of a message id (§6: "message
id token"); the concrete spelling is taken to be the id's name. -/
def MsgId.token : MsgId → String
  | .REQ_PING => "REQ_PING"
  | .REQ_GET_DEVICE_ID => "REQ_GET_DEVICE_ID"
  | .REQ_GET_BRIGHTNESS => "REQ_GET_BRIGHTNESS"
  | .REQ_SET_BRIGHTNESS => "REQ_SET_BRIGHTNESS"
  | .REQ_INCREMENT_BRIGHTNESS => "REQ_INCREMENT_BRIGHTNESS"
  | .REQ_DECREMENT_BRIGHTNESS => "REQ_DECREMENT_BRIGHTNESS"
  | .REQ_BLANK_SCREEN => "REQ_BLANK_SCREEN"
  | .REQ_UNBLANK_SCREEN => "REQ_UNBLANK_SCREEN"
  | .REQ_GET_BATTERY_STATE => "REQ_GET_BATTERY_STATE"
  | .REQ_GET_PERIPHERAL_ENABLED => "REQ_GET_PERIPHERAL_ENABLED"
  | .REQ_GET_SCREEN_BLANKING_TIMEOUT => "REQ_GET_SCREEN_BLANKING_TIMEOUT"
  | .REQ_SET_SCREEN_BLANKING_TIMEOUT => "REQ_SET_SCREEN_BLANKING_TIMEOUT"
  | .RSP_ERR_SERVER => "RSP_ERR_SERVER"
  | .RSP_ERR_MALFORMED => "RSP_ERR_MALFORMED"
  | .RSP_ERR_UNSUPPORTED => "RSP_ERR_UNSUPPORTED"
  | .RSP_PING => "RSP_PING"
  | .RSP_GET_DEVICE_ID => "RSP_GET_DEVICE_ID"
  | .RSP_GET_BRIGHTNESS => "RSP_GET_BRIGHTNESS"
  | .RSP_SET_BRIGHTNESS => "RSP_SET_BRIGHTNESS"
  | .RSP_INCREMENT_BRIGHTNESS => "RSP_INCREMENT_BRIGHTNESS"
  | .RSP_DECREMENT_BRIGHTNESS => "RSP_DECREMENT_BRIGHTNESS"
  | .RSP_BLANK_SCREEN => "RSP_BLANK_SCREEN"
  | .RSP_UNBLANK_SCREEN => "RSP_UNBLANK_SCREEN"
  | .RSP_GET_BATTERY_STATE => "RSP_GET_BATTERY_STATE"
  | .RSP_GET_PERIPHERAL_ENABLED => "RSP_GET_PERIPHERAL_ENABLED"
  | .RSP_GET_SCREEN_BLANKING_TIMEOUT => "RSP_GET_SCREEN_BLANKING_TIMEOUT"
  | .RSP_SET_SCREEN_BLANKING_TIMEOUT => "RSP_SET_SCREEN_BLANKING_TIMEOUT"
  | .PUB_BRIGHTNESS_CHANGED => "PUB_BRIGHTNESS_CHANGED"
  | .PUB_PERIPHERAL_CONNECTED => "PUB_PERIPHERAL_CONNECTED"
  | .PUB_PERIPHERAL_DISCONNECTED => "PUB_PERIPHERAL_DISCONNECTED"
  | .PUB_UNSUPPORTED_HARDWARE => "PUB_UNSUPPORTED_HARDWARE"
  | .PUB_SHUTDOWN_REQUESTED => "PUB_SHUTDOWN_REQUESTED"
  | .PUB_REBOOT_REQUIRED => "PUB_REBOOT_REQUIRED"
  | .PUB_BATTERY_STATE_CHANGED => "PUB_BATTERY_STATE_CHANGED"
  | .PUB_SCREEN_BLANKED => "PUB_SCREEN_BLANKED"
  | .PUB_SCREEN_UNBLANKED => "PUB_SCREEN_UNBLANKED"
  | .PUB_LOW_BATTERY_WARNING => "PUB_LOW_BATTERY_WARNING"
  | .PUB_CRITICAL_BATTERY_WARNING => "PUB_CRITICAL_BATTERY_WARNING"
  | .PUB_LID_OPENED => "PUB_LID_OPENED"
  | .PUB_LID_CLOSED => "PUB_LID_CLOSED"
  | .PUB_V3_BUTTON_UP_PRESSED => "PUB_V3_BUTTON_UP_PRESSED"
  | .PUB_V3_BUTTON_UP_RELEASED => "PUB_V3_BUTTON_UP_RELEASED"
  | .PUB_V3_BUTTON_DOWN_PRESSED => "PUB_V3_BUTTON_DOWN_PRESSED"
  | .PUB_V3_BUTTON_DOWN_RELEASED => "PUB_V3_BUTTON_DOWN_RELEASED"
  | .PUB_V3_BUTTON_SELECT_PRESSED => "PUB_V3_BUTTON_SELECT_PRESSED"
  | .PUB_V3_BUTTON_SELECT_RELEASED => "PUB_V3_BUTTON_SELECT_RELEASED"
  | .PUB_V3_BUTTON_CANCEL_PRESSED => "PUB_V3_BUTTON_CANCEL_PRESSED"
  | .PUB_V3_BUTTON_CANCEL_RELEASED => "PUB_V3_BUTTON_CANCEL_RELEASED"
  | .PUB_OLED_CONTROL_CHANGED => "PUB_OLED_CONTROL_CHANGED"
  | .PUB_OLED_SPI_BUS_CHANGED => "PUB_OLED_SPI_BUS_CHANGED"
  | .PUB_PITOPD_READY => "PUB_PITOPD_READY"

/-- All message ids, for token lookup during decode. -/
def allMsgIds : List MsgId :=
  [.REQ_PING, .REQ_GET_DEVICE_ID, .REQ_GET_BRIGHTNESS, .REQ_SET_BRIGHTNESS,
   .REQ_INCREMENT_BRIGHTNESS, .REQ_DECREMENT_BRIGHTNESS, .REQ_BLANK_SCREEN,
   .REQ_UNBLANK_SCREEN, .REQ_GET_BATTERY_STATE, .REQ_GET_PERIPHERAL_ENABLED,
   .REQ_GET_SCREEN_BLANKING_TIMEOUT, .REQ_SET_SCREEN_BLANKING_TIMEOUT,
   .RSP_ERR_SERVER, .RSP_ERR_MALFORMED, .RSP_ERR_UNSUPPORTED,
   .RSP_PING, .RSP_GET_DEVICE_ID, .RSP_GET_BRIGHTNESS, .RSP_SET_BRIGHTNESS,
   .RSP_INCREMENT_BRIGHTNESS, .RSP_DECREMENT_BRIGHTNESS, .RSP_BLANK_SCREEN,
   .RSP_UNBLANK_SCREEN, .RSP_GET_BATTERY_STATE, .RSP_GET_PERIPHERAL_ENABLED,
   .RSP_GET_SCREEN_BLANKING_TIMEOUT, .RSP_SET_SCREEN_BLANKING_TIMEOUT,
   .PUB_BRIGHTNESS_CHANGED, .PUB_PERIPHERAL_CONNECTED,
   .PUB_PERIPHERAL_DISCONNECTED, .PUB_UNSUPPORTED_HARDWARE,
   .PUB_SHUTDOWN_REQUESTED, .PUB_REBOOT_REQUIRED, .PUB_BATTERY_STATE_CHANGED,
   .PUB_SCREEN_BLANKED, .PUB_SCREEN_UNBLANKED, .PUB_LOW_BATTERY_WARNING,
   .PUB_CRITICAL_BATTERY_WARNING, .PUB_LID_OPENED, .PUB_LID_CLOSED,
   .PUB_V3_BUTTON_UP_PRESSED, .PUB_V3_BUTTON_UP_RELEASED,
   .PUB_V3_BUTTON_DOWN_PRESSED, .PUB_V3_BUTTON_DOWN_RELEASED,
   .PUB_V3_BUTTON_SELECT_PRESSED, .PUB_V3_BUTTON_SELECT_RELEASED,
   .PUB_V3_BUTTON_CANCEL_PRESSED, .PUB_V3_BUTTON_CANCEL_RELEASED,
   .PUB_OLED_CONTROL_CHANGED, .PUB_OLED_SPI_BUS_CHANGED, .PUB_PITOPD_READY]

/-- Modelled from the spec: decode side of token recognition — the id
whose token equals the given string, if any (§4.1: decode "fails ... if
the string has no recognizable id token"). -/
def idOfToken? (t : String) : Option MsgId :=
  allMsgIds.find? (fun i => i.token == t)

/-- Is this id a response (`RSP_*`) id? -/
def isRspId : MsgId → Bool
  | .RSP_ERR_SERVER | .RSP_ERR_MALFORMED | .RSP_ERR_UNSUPPORTED
  | .RSP_PING | .RSP_GET_DEVICE_ID | .RSP_GET_BRIGHTNESS
  | .RSP_SET_BRIGHTNESS | .RSP_INCREMENT_BRIGHTNESS
  | .RSP_DECREMENT_BRIGHTNESS | .RSP_BLANK_SCREEN | .RSP_UNBLANK_SCREEN
  | .RSP_GET_BATTERY_STATE | .RSP_GET_PERIPHERAL_ENABLED
  | .RSP_GET_SCREEN_BLANKING_TIMEOUT | .RSP_SET_SCREEN_BLANKING_TIMEOUT => true
  | _ => false

/-- Render a primitive value as a wire parameter token (Python `str`). -/
def PyVal.render : PyVal → String
  | .int n => toString n
  | .bool b => if b then "True" else "False"
  | .str s => s
  | .noneVal => "None"

/-- Split a character list at `'|'` delimiters, accumulating the current
token (reversed) in `acc`. -/
def splitBarAux : List Char → List Char → List String
  | [], acc => [String.mk acc.reverse]
  | c :: rest, acc =>
    if c = '|' then String.mk acc.reverse :: splitBarAux rest []
    else splitBarAux rest (c :: acc)

/-- Split a string at `'|'` delimiters (always at least one token). -/
def splitBar (s : String) : List String :=
  splitBarAux s.toList []

/-- Join tokens with the `'|'` delimiter. -/
def joinBar : List String → String
  | [] => ""
  | [t] => t
  | t :: t2 :: ts => t ++ "|" ++ joinBar (t2 :: ts)

/-- Modelled from the spec: a decoded message — an id of the closed
enumeration plus the ordered raw parameter tokens (§3 Data model,
§6 wire format).  The concrete `Message` class lives in the external
`pitop.common.ptdm` package, outside this repository. -/
structure Message where
  id : MsgId
  rawParams : List String
deriving DecidableEq, Repr

/-- Modelled from the spec: `encode` — id token and parameter tokens
joined with the reserved delimiter (§4.1, §6). -/
def Message.to_string (m : Message) : String :=
  joinBar (m.id.token :: m.rawParams)

/-- Modelled from the spec: construction of a message from an id and
primitive parameter values (`Message.from_parts` in the source's
callers). -/
def Message.from_parts (id : MsgId) (params : List PyVal) : Message :=
  ⟨id, params.map PyVal.render⟩

/-- Modelled from the spec: `decode` — fails with a `DecodeError`
(raised as `ValueError`) if the string has no recognizable id token
(§4.1). -/
def Message.from_string (s : String) : Except PyErr Message :=
  match splitBar s with
  | [] => .error .valueError
  | t :: rest =>
    match idOfToken? t with
    | none => .error .valueError
    | some id => .ok ⟨id, rest⟩

/-- Modelled from the spec: can a raw parameter token be coerced to the
expected type (§4.1)?  Only integer schemas occur in the catalogue. -/
def coercible (p : String) : PyType → Bool
  | .int => (strToInt? p).isSome
  | _ => false

/-- Modelled from the spec: `validateParameters` — fails with a
`ValidationError` (raised as `ValueError`) if the parameter count
differs from the schema's, or, count verified, some parameter token
cannot be coerced to its expected type (§4.1). -/
def Message.validate_parameters (m : Message) (expected : List PyType) :
    Except PyErr Unit :=
  if m.rawParams.length ≠ expected.length then .error .valueError
  else if (m.rawParams.zip expected).all (fun pt => coercible pt.1 pt.2) then .ok ()
  else .error .valueError

/-- One invocation of a `CallbackClient` method, recorded by the
instrumented embedding of `RequestServer._process_request`. -/
inductive CallEvent where
  | getDeviceId
  | getBrightness
  | setBrightness (n : Int)
  | incrementBrightness
  | decrementBrightness
  | blankScreen
  | unblankScreen
  | batteryState
  | getPeripheralEnabled (n : Int)
  | getScreenBlankingTimeout
  | setScreenBlankingTimeout (n : Int)
deriving DecidableEq, Repr

/-- The callback interface invoked by `RequestServer._process_request`
(the daemon core; spec §4.4).  Each method is synchronous and may raise:
`Except.error e` models the method raising exception `e`.  Leading
underscores of the Python method names are dropped. -/
structure CallbackClient where
  on_request_get_device_id : Except PyErr PyVal
  on_request_get_brightness : Except PyErr PyVal
  on_request_set_brightness : Int → Except PyErr Unit
  on_request_increment_brightness : Except PyErr Unit
  on_request_decrement_brightness : Except PyErr Unit
  on_request_blank_screen : Except PyErr Unit
  on_request_unblank_screen : Except PyErr Unit
  on_request_battery_state : Except PyErr (PyVal × PyVal × PyVal × PyVal)
  on_request_get_peripheral_enabled : Int → Except PyErr PyVal
  on_request_get_screen_blanking_timeout : Except PyErr PyVal
  on_request_set_screen_blanking_timeout : Int → Except PyErr Unit

/-- The `if/elif` chain on the message id inside the `try:` block of
`RequestServer._process_request` (src/src/ptdm_request_server.py lines
81-183): validate the branch's schema, invoke the branch's callback
method, build the branch's response, with the final `else` building
`RSP_ERR_UNSUPPORTED`.  The result is the response message, or the
exception escaping the chain; paired with the list of callback
invocations that occurred. -/
def dispatchRequest (cb : CallbackClient) (message : Message) :
    Except PyErr Message × List CallEvent :=
  match message.id with
    | .REQ_PING =>
      match message.validate_parameters [] with
      | .error e => (.error e, [])
      | .ok _ => (.ok (Message.from_parts .RSP_PING []), [])
    | .REQ_GET_DEVICE_ID =>
      match message.validate_parameters [] with
      | .error e => (.error e, [])
      | .ok _ =>
        match cb.on_request_get_device_id with
        | .error e => (.error e, [.getDeviceId])
        | .ok device_id =>
          (.ok (Message.from_parts .RSP_GET_DEVICE_ID [device_id]), [.getDeviceId])
    | .REQ_GET_BRIGHTNESS =>
      match message.validate_parameters [] with
      | .error e => (.error e, [])
      | .ok _ =>
        match cb.on_request_get_brightness with
        | .error e => (.error e, [.getBrightness])
        | .ok brightness =>
          (.ok (Message.from_parts .RSP_GET_BRIGHTNESS [brightness]), [.getBrightness])
    | .REQ_SET_BRIGHTNESS =>
      match message.validate_parameters [PyType.int] with
      | .error e => (.error e, [])
      | .ok _ =>
        match message.rawParams with
        | [] => (.error (.otherError "IndexError"), [])
        | p :: _ =>
          match strToInt? p with
          | none => (.error .valueError, [])
          | some n =>
            match cb.on_request_set_brightness n with
            | .error e => (.error e, [.setBrightness n])
            | .ok _ =>
              (.ok (Message.from_parts .RSP_SET_BRIGHTNESS []), [.setBrightness n])
    | .REQ_INCREMENT_BRIGHTNESS =>
      match message.validate_parameters [] with
      | .error e => (.error e, [])
      | .ok _ =>
        match cb.on_request_increment_brightness with
        | .error e => (.error e, [.incrementBrightness])
        | .ok _ =>
          (.ok (Message.from_parts .RSP_INCREMENT_BRIGHTNESS []), [.incrementBrightness])
    | .REQ_DECREMENT_BRIGHTNESS =>
      match message.validate_parameters [] with
      | .error e => (.error e, [])
      | .ok _ =>
        match cb.on_request_decrement_brightness with
        | .error e => (.error e, [.decrementBrightness])
        | .ok _ =>
          (.ok (Message.from_parts .RSP_DECREMENT_BRIGHTNESS []), [.decrementBrightness])
    | .REQ_BLANK_SCREEN =>
      match message.validate_parameters [] with
      | .error e => (.error e, [])
      | .ok _ =>
        match cb.on_request_blank_screen with
        | .error e => (.error e, [.blankScreen])
        | .ok _ =>
          (.ok (Message.from_parts .RSP_BLANK_SCREEN []), [.blankScreen])
    | .REQ_UNBLANK_SCREEN =>
      match message.validate_parameters [] with
      | .error e => (.error e, [])
      | .ok _ =>
        match cb.on_request_unblank_screen with
        | .error e => (.error e, [.unblankScreen])
        | .ok _ =>
          (.ok (Message.from_parts .RSP_UNBLANK_SCREEN []), [.unblankScreen])
    | .REQ_GET_BATTERY_STATE =>
      match message.validate_parameters [] with
      | .error e => (.error e, [])
      | .ok _ =>
        match cb.on_request_battery_state with
        | .error e => (.error e, [.batteryState])
        | .ok (charging_state, capacity, time_remaining, wattage) =>
          (.ok (Message.from_parts .RSP_GET_BATTERY_STATE
              [charging_state, capacity, time_remaining, wattage]), [.batteryState])
    | .REQ_GET_PERIPHERAL_ENABLED =>
      match message.validate_parameters [PyType.int] with
      | .error e => (.error e, [])
      | .ok _ =>
        match message.rawParams with
        | [] => (.error (.otherError "IndexError"), [])
        | p :: _ =>
          match strToInt? p with
          | none => (.error .valueError, [])
          | some n =>
            match cb.on_request_get_peripheral_enabled n with
            | .error e => (.error e, [.getPeripheralEnabled n])
            | .ok enabled_bool =>
              -- Python: enabled_int = int(enabled_bool is True)
              let enabled_int : Int := if enabled_bool = PyVal.bool true then 1 else 0
              (.ok (Message.from_parts .RSP_GET_PERIPHERAL_ENABLED
                  [PyVal.int enabled_int]), [.getPeripheralEnabled n])
    | .REQ_GET_SCREEN_BLANKING_TIMEOUT =>
      match message.validate_parameters [] with
      | .error e => (.error e, [])
      | .ok _ =>
        match cb.on_request_get_screen_blanking_timeout with
        | .error e => (.error e, [.getScreenBlankingTimeout])
        | .ok timeout =>
          (.ok (Message.from_parts .RSP_GET_SCREEN_BLANKING_TIMEOUT [timeout]),
           [.getScreenBlankingTimeout])
    | .REQ_SET_SCREEN_BLANKING_TIMEOUT =>
      match message.validate_parameters [PyType.int] with
      | .error e => (.error e, [])
      | .ok _ =>
        match message.rawParams with
        | [] => (.error (.otherError "IndexError"), [])
        | p :: _ =>
          match strToInt? p with
          | none => (.error .valueError, [])
          | some n =>
            match cb.on_request_set_screen_blanking_timeout n with
            | .error e => (.error e, [.setScreenBlankingTimeout n])
            | .ok _ =>
              (.ok (Message.from_parts .RSP_SET_SCREEN_BLANKING_TIMEOUT []),
               [.setScreenBlankingTimeout n])
    | _ =>
      -- else: unsupported request id
      (.ok (Message.from_parts .RSP_ERR_UNSUPPORTED []), [])

/-- The body of the `try:` block of `RequestServer._process_request`
(src/src/ptdm_request_server.py lines 77-183): decode the request
(`Message.from_string` raises on failure), then run the `if/elif`
chain. -/
def process_request_core (cb : CallbackClient) (request : String) :
    Except PyErr Message × List CallEvent :=
  match Message.from_string request with
  | .error e => (.error e, [])
  | .ok message => dispatchRequest cb message

/-- `RequestServer._process_request`: the `try:` body above with the
source's exception handlers — `except ValueError` builds
`RSP_ERR_MALFORMED`, `except Exception` builds `RSP_ERR_SERVER` — and
the final `return response.to_string()`.  Instrumented with the list of
callback invocations. -/
def process_request (cb : CallbackClient) (request : String) :
    String × List CallEvent :=
  match process_request_core cb request with
  | (.ok response, evs) => (response.to_string, evs)
  | (.error .valueError, evs) =>
    ((Message.from_parts .RSP_ERR_MALFORMED []).to_string, evs)
  | (.error _, evs) =>
    ((Message.from_parts .RSP_ERR_SERVER []).to_string, evs)

/-- One iteration of the `while self._continue:` loop of
`RequestServer._thread_method`: if the continue flag is cleared the
loop exits; otherwise, if polling delivered a request, process it and
send exactly one reply.  Returns the continue flag after the iteration
and the list of replies sent during it. -/
def thread_iteration (cb : CallbackClient) (continue_flag : Bool)
    (incoming : Option String) : Bool × List String :=
  if continue_flag then
    match incoming with
    | none => (continue_flag, [])
    | some req => (continue_flag, [(process_request cb req).1])
  else (continue_flag, [])

/-- A zmq socket handle: `none` models the attribute absent (responder,
where `_zmq_socket` is only created inside `start_listening`) or `None`
(publisher `__init__`); `some true` an open socket, `some false` a
closed one (Python keeps the attribute pointing at the closed socket
object after `close()`). -/
abbrev SocketHandle := Option Bool

/-- State of a `PublishServer` instance
(src/pitopd/server/publish_server.py).  `sent` is the observable wire
traffic: the list of encoded strings written with `send_string`, in
order. -/
structure PubState where
  emit_messages : Bool
  shutting_down : Bool
  zmq_socket : SocketHandle
  sent : List String
deriving DecidableEq, Repr

namespace PublishServer

/-- `PublishServer.__init__`: emitting disabled, not shutting down, no
socket, nothing sent. -/
def initState : PubState :=
  { emit_messages := false, shutting_down := false, zmq_socket := none, sent := [] }

/-- `PublishServer.start_listening`: under the socket lock, create the
context and socket and bind; `bindOk` tells whether the bind raised
`zmq.error.ZMQError`.  The socket attribute is assigned before the bind,
so it is set even when the bind fails; the return value reports
success.  Note the shutting-down flag is not reset. -/
def start_listening (s : PubState) (bindOk : Bool) : PubState × Bool :=
  ({ s with zmq_socket := some true }, bindOk)

/-- `PublishServer.stop_listening`: under the socket lock, set the
shutting-down flag; then, if the socket attribute is not `None`, close
the socket and destroy the context (both idempotent in zmq; a
`zmq.error.ZMQError` would be caught and logged). -/
def stop_listening (s : PubState) : PubState :=
  let s1 := { s with shutting_down := true }
  match s1.zmq_socket with
  | none => s1
  | some _ => { s1 with zmq_socket := some false }

/-- `PublishServer._send_message`: build the message; if the socket is
`None` or emitting is disabled, log a "not publishing" notice and
return; otherwise, under the socket lock, return silently if shutting
down, else write the encoded message (a `zmq.error.ZMQError` from the
write — e.g. on a closed socket — is caught and logged, leaving the
traffic unchanged). -/
def send_message (s : PubState) (message_id : MsgId)
    (parameters : List PyVal := []) : PubState :=
  let message := Message.from_parts message_id parameters
  if s.zmq_socket.isNone || !s.emit_messages then s
  else if s.shutting_down = true then s
  else
    match s.zmq_socket with
    | some true => { s with sent := s.sent ++ [message.to_string] }
    | _ => s

/-- `PublishServer._check_type`: raises `TypeError` unless
`isinstance(var, var_type)`. -/
def check_type (var : PyVal) (var_type : PyType) : Except PyErr Unit :=
  if isinstance var var_type = false then .error .typeError else .ok ()

/-- `publish_brightness_changed(new_brightness: int)`. -/
def publish_brightness_changed (s : PubState) (new_brightness : PyVal) :
    Except PyErr PubState :=
  match check_type new_brightness .int with
  | .error e => .error e
  | .ok _ => .ok (send_message s .PUB_BRIGHTNESS_CHANGED [new_brightness])

/-- `publish_peripheral_connected(peripheral_id: int)`. -/
def publish_peripheral_connected (s : PubState) (peripheral_id : PyVal) :
    Except PyErr PubState :=
  match check_type peripheral_id .int with
  | .error e => .error e
  | .ok _ => .ok (send_message s .PUB_PERIPHERAL_CONNECTED [peripheral_id])

/-- `publish_peripheral_disconnected(peripheral_id: int)`. -/
def publish_peripheral_disconnected (s : PubState) (peripheral_id : PyVal) :
    Except PyErr PubState :=
  match check_type peripheral_id .int with
  | .error e => .error e
  | .ok _ => .ok (send_message s .PUB_PERIPHERAL_DISCONNECTED [peripheral_id])

/-- `publish_unsupported_hardware()`. -/
def publish_unsupported_hardware (s : PubState) : Except PyErr PubState :=
  .ok (send_message s .PUB_UNSUPPORTED_HARDWARE)

/-- `publish_shutdown_requested()`. -/
def publish_shutdown_requested (s : PubState) : Except PyErr PubState :=
  .ok (send_message s .PUB_SHUTDOWN_REQUESTED)

/-- `publish_reboot_required()`. -/
def publish_reboot_required (s : PubState) : Except PyErr PubState :=
  .ok (send_message s .PUB_REBOOT_REQUIRED)

/-- `publish_battery_state_changed(connected, new_capacity, new_time,
new_wattage)` — all four checked as `int`; the `log_message` flag only
affects logging, not wire traffic. -/
def publish_battery_state_changed (s : PubState)
    (connected new_capacity new_time new_wattage : PyVal) :
    Except PyErr PubState :=
  match check_type connected .int with
  | .error e => .error e
  | .ok _ =>
    match check_type new_capacity .int with
    | .error e => .error e
    | .ok _ =>
      match check_type new_time .int with
      | .error e => .error e
      | .ok _ =>
        match check_type new_wattage .int with
        | .error e => .error e
        | .ok _ => .ok (send_message s .PUB_BATTERY_STATE_CHANGED
            [connected, new_capacity, new_time, new_wattage])

/-- `publish_screen_blanked()`. -/
def publish_screen_blanked (s : PubState) : Except PyErr PubState :=
  .ok (send_message s .PUB_SCREEN_BLANKED)

/-- `publish_screen_unblanked()`. -/
def publish_screen_unblanked (s : PubState) : Except PyErr PubState :=
  .ok (send_message s .PUB_SCREEN_UNBLANKED)

/-- `publish_low_battery_warning()`. -/
def publish_low_battery_warning (s : PubState) : Except PyErr PubState :=
  .ok (send_message s .PUB_LOW_BATTERY_WARNING)

/-- `publish_critical_battery_warning()`. -/
def publish_critical_battery_warning (s : PubState) : Except PyErr PubState :=
  .ok (send_message s .PUB_CRITICAL_BATTERY_WARNING)

/-- `publish_lid_opened()`. -/
def publish_lid_opened (s : PubState) : Except PyErr PubState :=
  .ok (send_message s .PUB_LID_OPENED)

/-- `publish_lid_closed()`. -/
def publish_lid_closed (s : PubState) : Except PyErr PubState :=
  .ok (send_message s .PUB_LID_CLOSED)

/-- `publish_up_button_press_state_changed(is_pressed)` — no type
check; `is_pressed` is used for its truthiness. -/
def publish_up_button_press_state_changed (s : PubState) (is_pressed : PyVal) :
    Except PyErr PubState :=
  if pyTruthy is_pressed then .ok (send_message s .PUB_V3_BUTTON_UP_PRESSED)
  else .ok (send_message s .PUB_V3_BUTTON_UP_RELEASED)

/-- `publish_down_button_press_state_changed(is_pressed)`. -/
def publish_down_button_press_state_changed (s : PubState) (is_pressed : PyVal) :
    Except PyErr PubState :=
  if pyTruthy is_pressed then .ok (send_message s .PUB_V3_BUTTON_DOWN_PRESSED)
  else .ok (send_message s .PUB_V3_BUTTON_DOWN_RELEASED)

/-- `publish_select_button_press_state_changed(is_pressed)`. -/
def publish_select_button_press_state_changed (s : PubState) (is_pressed : PyVal) :
    Except PyErr PubState :=
  if pyTruthy is_pressed then .ok (send_message s .PUB_V3_BUTTON_SELECT_PRESSED)
  else .ok (send_message s .PUB_V3_BUTTON_SELECT_RELEASED)

/-- `publish_cancel_button_press_state_changed(is_pressed)`. -/
def publish_cancel_button_press_state_changed (s : PubState) (is_pressed : PyVal) :
    Except PyErr PubState :=
  if pyTruthy is_pressed then .ok (send_message s .PUB_V3_BUTTON_CANCEL_PRESSED)
  else .ok (send_message s .PUB_V3_BUTTON_CANCEL_RELEASED)

/-- `publish_oled_pi_controlled_state_changed(oled_controlled_by_pi)` —
no type check; the parameter is `1 if oled_controlled_by_pi else 0`. -/
def publish_oled_pi_controlled_state_changed (s : PubState)
    (oled_controlled_by_pi : PyVal) : Except PyErr PubState :=
  .ok (send_message s .PUB_OLED_CONTROL_CHANGED
    [PyVal.int (if pyTruthy oled_controlled_by_pi then 1 else 0)])

/-- `publish_oled_spi_state_changed(oled_uses_spi0)` — no type check;
the parameter is `0 if oled_uses_spi0 else 1`. -/
def publish_oled_spi_state_changed (s : PubState) (oled_uses_spi0 : PyVal) :
    Except PyErr PubState :=
  .ok (send_message s .PUB_OLED_SPI_BUS_CHANGED
    [PyVal.int (if pyTruthy oled_uses_spi0 then 0 else 1)])

/-- `publish_pitopd_ready()`. -/
def publish_pitopd_ready (s : PubState) : Except PyErr PubState :=
  .ok (send_message s .PUB_PITOPD_READY)

end PublishServer

/-- State of a `RequestServer` instance
(src/src/ptdm_request_server.py).  `zmq_socket`/`zmq_context` are
`none` while the attribute has not been created (it is only assigned
inside `start_listening`); `continue_flag` is the `_continue`
cooperative stop flag (also an attribute only assigned in
`start_listening`/`stop_listening`; its value is irrelevant before
first assignment); `thread_alive` is `self._thread.is_alive()`. -/
structure ReqState where
  continue_flag : Bool
  thread_alive : Bool
  zmq_socket : SocketHandle
  zmq_context : SocketHandle
deriving DecidableEq, Repr

namespace RequestServer

/-- `RequestServer.__init__` (plus `initialise`): the worker thread is
created but not started; no socket or context attribute exists yet. -/
def initState : ReqState :=
  { continue_flag := false, thread_alive := false,
    zmq_socket := none, zmq_context := none }

/-- `RequestServer.start_listening`: create context and socket
(attributes now exist), bind; on `zmq.error.ZMQError` log and return
without setting `_continue` or starting the thread; on success set
`_continue = True` and start the worker. -/
def start_listening (s : ReqState) (bindOk : Bool) : ReqState :=
  let s1 := { s with zmq_context := some true, zmq_socket := some true }
  if bindOk then { s1 with continue_flag := true, thread_alive := true }
  else s1

/-- `RequestServer.stop_listening`: set `_continue = False`; join the
worker if alive (it observes the flag within one bounded poll
iteration, so the join returns and the thread is no longer alive);
then `self._zmq_socket.close()` — an `AttributeError` if the attribute
was never created — and `self._zmq_context.destroy()`. -/
def stop_listening (s : ReqState) : Except PyErr ReqState :=
  let s1 := { s with continue_flag := false }
  let s2 := if s1.thread_alive then { s1 with thread_alive := false } else s1
  match s2.zmq_socket with
  | none => .error .attributeError
  | some _ =>
    let s3 := { s2 with zmq_socket := some false }
    match s3.zmq_context with
    | none => .error .attributeError
    | some _ => .ok { s3 with zmq_context := some false }

end RequestServer

/-- One call of a `publish_*` method of `PublishServer`, with its
Python-level arguments. -/
inductive PubCall where
  | brightness_changed (v : PyVal)
  | peripheral_connected (v : PyVal)
  | peripheral_disconnected (v : PyVal)
  | unsupported_hardware
  | shutdown_requested
  | reboot_required
  | battery_state_changed (a b c d : PyVal)
  | screen_blanked
  | screen_unblanked
  | low_battery_warning
  | critical_battery_warning
  | lid_opened
  | lid_closed
  | up_button_press_state_changed (v : PyVal)
  | down_button_press_state_changed (v : PyVal)
  | select_button_press_state_changed (v : PyVal)
  | cancel_button_press_state_changed (v : PyVal)
  | oled_pi_controlled_state_changed (v : PyVal)
  | oled_spi_state_changed (v : PyVal)
  | pitopd_ready
deriving DecidableEq, Repr

/-- Run one `publish_*` call on a publisher state. -/
def runPubCall (s : PubState) : PubCall → Except PyErr PubState
  | .brightness_changed v => PublishServer.publish_brightness_changed s v
  | .peripheral_connected v => PublishServer.publish_peripheral_connected s v
  | .peripheral_disconnected v => PublishServer.publish_peripheral_disconnected s v
  | .unsupported_hardware => PublishServer.publish_unsupported_hardware s
  | .shutdown_requested => PublishServer.publish_shutdown_requested s
  | .reboot_required => PublishServer.publish_reboot_required s
  | .battery_state_changed a b c d =>
    PublishServer.publish_battery_state_changed s a b c d
  | .screen_blanked => PublishServer.publish_screen_blanked s
  | .screen_unblanked => PublishServer.publish_screen_unblanked s
  | .low_battery_warning => PublishServer.publish_low_battery_warning s
  | .critical_battery_warning => PublishServer.publish_critical_battery_warning s
  | .lid_opened => PublishServer.publish_lid_opened s
  | .lid_closed => PublishServer.publish_lid_closed s
  | .up_button_press_state_changed v =>
    PublishServer.publish_up_button_press_state_changed s v
  | .down_button_press_state_changed v =>
    PublishServer.publish_down_button_press_state_changed s v
  | .select_button_press_state_changed v =>
    PublishServer.publish_select_button_press_state_changed s v
  | .cancel_button_press_state_changed v =>
    PublishServer.publish_cancel_button_press_state_changed s v
  | .oled_pi_controlled_state_changed v =>
    PublishServer.publish_oled_pi_controlled_state_changed s v
  | .oled_spi_state_changed v => PublishServer.publish_oled_spi_state_changed s v
  | .pitopd_ready => PublishServer.publish_pitopd_ready s

/-- Do the call's arguments pass the method's declared type checks
(an `int` check exactly where the source calls `_check_type`)? -/
def PubCall.wellTyped : PubCall → Bool
  | .brightness_changed v => isinstance v .int
  | .peripheral_connected v => isinstance v .int
  | .peripheral_disconnected v => isinstance v .int
  | .battery_state_changed a b c d =>
    isinstance a .int && isinstance b .int && isinstance c .int && isinstance d .int
  | _ => true

/-- Any operation a caller can perform on a `PublishServer` instance
after construction.  A `publish_*` call whose type check raises leaves
the state unchanged (the `TypeError` propagates to the caller before
any state is touched). -/
inductive PubOp where
  | start_listening (bindOk : Bool)
  | stop_listening
  | setEmitting (b : Bool)
  | send_message (mid : MsgId) (params : List PyVal)
  | pub (c : PubCall)
deriving DecidableEq, Repr

/-- Apply one operation to a publisher state. -/
def applyPubOp (s : PubState) : PubOp → PubState
  | .start_listening bindOk => (PublishServer.start_listening s bindOk).1
  | .stop_listening => PublishServer.stop_listening s
  | .setEmitting b => { s with emit_messages := b }
  | .send_message mid params => PublishServer.send_message s mid params
  | .pub c =>
    match runPubCall s c with
    | .ok s1 => s1
    | .error _ => s

/-- Apply a sequence of operations in order. -/
def applyPubOps (s : PubState) : List PubOp → PubState
  | [] => s
  | o :: os => applyPubOps (applyPubOp s o) os

/-- The dispatch table's parameter schema: for each request id handled
by the `if/elif` chain of `_process_request`, the argument the branch
passes to `validate_parameters`; `none` for ids that fall to the
`else` (unsupported) branch. -/
def dispatchSchema : MsgId → Option (List PyType)
  | .REQ_PING => some []
  | .REQ_GET_DEVICE_ID => some []
  | .REQ_GET_BRIGHTNESS => some []
  | .REQ_SET_BRIGHTNESS => some [PyType.int]
  | .REQ_INCREMENT_BRIGHTNESS => some []
  | .REQ_DECREMENT_BRIGHTNESS => some []
  | .REQ_BLANK_SCREEN => some []
  | .REQ_UNBLANK_SCREEN => some []
  | .REQ_GET_BATTERY_STATE => some []
  | .REQ_GET_PERIPHERAL_ENABLED => some [PyType.int]
  | .REQ_GET_SCREEN_BLANKING_TIMEOUT => some []
  | .REQ_SET_SCREEN_BLANKING_TIMEOUT => some [PyType.int]
  | _ => none

/-- Does the branch for this request id invoke a `CallbackClient`
method?  (Every dispatched id except `REQ_PING`, whose branch builds
the response directly.) -/
def invokesCallback : MsgId → Bool
  | .REQ_GET_DEVICE_ID | .REQ_GET_BRIGHTNESS | .REQ_SET_BRIGHTNESS
  | .REQ_INCREMENT_BRIGHTNESS | .REQ_DECREMENT_BRIGHTNESS
  | .REQ_BLANK_SCREEN | .REQ_UNBLANK_SCREEN | .REQ_GET_BATTERY_STATE
  | .REQ_GET_PERIPHERAL_ENABLED | .REQ_GET_SCREEN_BLANKING_TIMEOUT
  | .REQ_SET_SCREEN_BLANKING_TIMEOUT => true
  | _ => false

/-- A callback client all of whose methods raise exception `e`. -/
def throwingCb (e : PyErr) : CallbackClient where
  on_request_get_device_id := .error e
  on_request_get_brightness := .error e
  on_request_set_brightness := fun _ => .error e
  on_request_increment_brightness := .error e
  on_request_decrement_brightness := .error e
  on_request_blank_screen := .error e
  on_request_unblank_screen := .error e
  on_request_battery_state := .error e
  on_request_get_peripheral_enabled := fun _ => .error e
  on_request_get_screen_blanking_timeout := .error e
  on_request_set_screen_blanking_timeout := fun _ => .error e

/-- A callback client all of whose methods succeed, with fixed benign
return values. -/
def okCb : CallbackClient where
  on_request_get_device_id := .ok (.int 3)
  on_request_get_brightness := .ok (.int 100)
  on_request_set_brightness := fun _ => .ok ()
  on_request_increment_brightness := .ok ()
  on_request_decrement_brightness := .ok ()
  on_request_blank_screen := .ok ()
  on_request_unblank_screen := .ok ()
  on_request_battery_state := .ok (.int 1, .int 80, .int 120, .int 15)
  on_request_get_peripheral_enabled := fun _ => .ok (.bool true)
  on_request_get_screen_blanking_timeout := .ok (.int 300)
  on_request_set_screen_blanking_timeout := fun _ => .ok ()

/-- A publisher that has started successfully and is emitting: the
state after `start_listening` succeeded and `emit_messages` was set. -/
def readyPub : PubState :=
  { emit_messages := true, shutting_down := false, zmq_socket := some true,
    sent := [] }

/-! ## Helper lemmas -/

/-- A failing `validate_parameters` always raises `ValueError`. -/
theorem validate_error (m : Message) (E : List PyType)
    (h : m.validate_parameters E ≠ .ok ()) :
    m.validate_parameters E = .error .valueError := by
  unfold Message.validate_parameters at h ⊢
  split
  · rfl
  · split
    · simp_all
    · rfl

/-- A message passing the `[int]` schema has exactly one parameter
token, and that token parses as an integer. -/
theorem validate_int_ok (m : Message)
    (h : m.validate_parameters [PyType.int] = .ok ()) :
    ∃ p n, m.rawParams = [p] ∧ strToInt? p = some n := by
  unfold Message.validate_parameters at h
  rcases hm : m.rawParams with _ | ⟨p, rest⟩
  · rw [hm] at h; simp at h
  · rcases rest with _ | ⟨q, rest2⟩
    · rw [hm] at h
      simp [coercible] at h
      rcases ho : strToInt? p with _ | n
      · rw [ho] at h; simp at h
      · exact ⟨p, n, rfl, ho⟩
    · rw [hm] at h; simp at h

/-- When decoding succeeds, the `try:` body is the dispatch chain on
the decoded message. -/
theorem core_of_ok (cb : CallbackClient) (req : String) (m : Message)
    (h : Message.from_string req = .ok m) :
    process_request_core cb req = dispatchRequest cb m := by
  unfold process_request_core
  rw [h]

/-- Every response message built by the `try:` body carries an `RSP_*`
id. -/
theorem core_rsp (cb : CallbackClient) (req : String) (r : Message)
    (evs : List CallEvent) (h : process_request_core cb req = (.ok r, evs)) :
    isRspId r.id = true := by
  unfold process_request_core dispatchRequest at h
  repeat' split at h
  all_goals simp_all [Message.from_parts]
  all_goals (obtain ⟨h1, h2⟩ := h; subst h1; rfl)

/-- An exception other than `ValueError` escaping the `try:` body is
converted to `RSP_ERR_SERVER` by the `except Exception` handler. -/
theorem process_request_of_core_error (cb : CallbackClient) (req : String)
    (e : PyErr) (evs : List CallEvent) (he : e ≠ .valueError)
    (h : process_request_core cb req = (.error e, evs)) :
    process_request cb req =
      ((Message.from_parts .RSP_ERR_SERVER []).to_string, evs) := by
  unfold process_request
  rw [h]
  rcases e with _ | _ | _ | _ | s
  · exact absurd rfl he
  all_goals rfl

/-- With an always-throwing callback, dispatching a valid, well-formed
request whose branch invokes the callback lets the callback's exception
escape the chain, after exactly one invocation. -/
theorem dispatch_throwing (e : PyErr) (m : Message) (sch : List PyType)
    (h2 : dispatchSchema m.id = some sch)
    (h3 : m.validate_parameters sch = .ok ())
    (h4 : invokesCallback m.id = true) :
    ∃ ev, dispatchRequest (throwingCb e) m = (.error e, [ev]) := by
  obtain ⟨mid, mparams⟩ := m
  cases mid
  all_goals simp only [dispatchSchema, Option.some.injEq, reduceCtorEq] at h2
  case REQ_PING => simp [invokesCallback] at h4
  all_goals subst h2
  all_goals simp only [dispatchRequest]
  all_goals first
    | (rw [h3]; exact ⟨_, rfl⟩)
    | (obtain ⟨p, n, hp, hn⟩ := validate_int_ok _ h3
       have hp' : mparams = [p] := hp
       subst hp'
       rw [h3]
       simp only [hn]
       exact ⟨_, rfl⟩)

/-- `_send_message` is a no-op when the socket is absent or emitting is
disabled. -/
theorem send_message_not_ready (s : PubState)
    (h : s.zmq_socket = none ∨ s.emit_messages = false) :
    ∀ mid ps, PublishServer.send_message s mid ps = s := by
  intro mid ps
  unfold PublishServer.send_message
  rcases h with h | h <;> simp [h]

/-- `_send_message` is a no-op once the shutting-down flag is set. -/
theorem send_message_shutting (s : PubState) (h : s.shutting_down = true) :
    ∀ mid ps, PublishServer.send_message s mid ps = s := by
  intro mid ps
  unfold PublishServer.send_message
  split
  · rfl
  · simp [h]

/-- A `publish_*` call with well-typed arguments on a not-ready or
non-emitting publisher succeeds and leaves the state (in particular the
wire traffic) unchanged. -/
theorem runPubCall_wellTyped_not_ready (s : PubState) (c : PubCall)
    (hready : s.zmq_socket = none ∨ s.emit_messages = false)
    (ht : c.wellTyped = true) :
    runPubCall s c = .ok s := by
  have hs := send_message_not_ready s hready
  cases c <;>
    simp_all [runPubCall, PubCall.wellTyped,
      PublishServer.publish_brightness_changed,
      PublishServer.publish_peripheral_connected,
      PublishServer.publish_peripheral_disconnected,
      PublishServer.publish_unsupported_hardware,
      PublishServer.publish_shutdown_requested,
      PublishServer.publish_reboot_required,
      PublishServer.publish_battery_state_changed,
      PublishServer.publish_screen_blanked,
      PublishServer.publish_screen_unblanked,
      PublishServer.publish_low_battery_warning,
      PublishServer.publish_critical_battery_warning,
      PublishServer.publish_lid_opened,
      PublishServer.publish_lid_closed,
      PublishServer.publish_up_button_press_state_changed,
      PublishServer.publish_down_button_press_state_changed,
      PublishServer.publish_select_button_press_state_changed,
      PublishServer.publish_cancel_button_press_state_changed,
      PublishServer.publish_oled_pi_controlled_state_changed,
      PublishServer.publish_oled_spi_state_changed,
      PublishServer.publish_pitopd_ready,
      PublishServer.check_type]

/-- On a shutting-down publisher, every `publish_*` call either
succeeds leaving the state unchanged or raises `TypeError` from its
argument check. -/
theorem runPubCall_shutting (s : PubState) (h : s.shutting_down = true)
    (c : PubCall) :
    runPubCall s c = .ok s ∨ runPubCall s c = .error PyErr.typeError := by
  have hs := send_message_shutting s h
  cases c <;>
    simp only [runPubCall,
      PublishServer.publish_brightness_changed,
      PublishServer.publish_peripheral_connected,
      PublishServer.publish_peripheral_disconnected,
      PublishServer.publish_unsupported_hardware,
      PublishServer.publish_shutdown_requested,
      PublishServer.publish_reboot_required,
      PublishServer.publish_battery_state_changed,
      PublishServer.publish_screen_blanked,
      PublishServer.publish_screen_unblanked,
      PublishServer.publish_low_battery_warning,
      PublishServer.publish_critical_battery_warning,
      PublishServer.publish_lid_opened,
      PublishServer.publish_lid_closed,
      PublishServer.publish_up_button_press_state_changed,
      PublishServer.publish_down_button_press_state_changed,
      PublishServer.publish_select_button_press_state_changed,
      PublishServer.publish_cancel_button_press_state_changed,
      PublishServer.publish_oled_pi_controlled_state_changed,
      PublishServer.publish_oled_spi_state_changed,
      PublishServer.publish_pitopd_ready,
      PublishServer.check_type, hs]
  all_goals try split_ifs <;> simp
  all_goals simp

/-- `stop_listening` sets the shutting-down flag and writes nothing. -/
theorem stop_listening_shutting (s : PubState) :
    (PublishServer.stop_listening s).shutting_down = true ∧
    (PublishServer.stop_listening s).sent = s.sent := by
  simp only [PublishServer.stop_listening]
  cases hq : s.zmq_socket <;> simp

/-- Every publisher operation preserves the shutting-down flag and,
once that flag is set, the wire traffic. -/
theorem applyPubOp_shutting (s : PubState) (h : s.shutting_down = true)
    (o : PubOp) :
    (applyPubOp s o).shutting_down = true ∧ (applyPubOp s o).sent = s.sent := by
  cases o with
  | start_listening b => simp [applyPubOp, PublishServer.start_listening, h]
  | stop_listening =>
    simpa [applyPubOp] using stop_listening_shutting s
  | setEmitting b => simp [applyPubOp, h]
  | send_message mid ps =>
    simp only [applyPubOp]
    rw [send_message_shutting s h]
    exact ⟨h, rfl⟩
  | pub c =>
    rcases runPubCall_shutting s h c with hc | hc <;> simp [applyPubOp, hc, h]

/-- Extension of the previous lemma to operation sequences. -/
theorem applyPubOps_shutting (ops : List PubOp) : ∀ s : PubState,
    s.shutting_down = true →
    (applyPubOps s ops).shutting_down = true ∧
    (applyPubOps s ops).sent = s.sent := by
  induction ops with
  | nil => intro s h; exact ⟨h, rfl⟩
  | cons o os ih =>
    intro s h
    obtain ⟨h1, h2⟩ := applyPubOp_shutting s h o
    obtain ⟨h3, h4⟩ := ih (applyPubOp s o) h1
    exact ⟨h3, h4.trans h2⟩

/-! ## Claims -/

/-- C1 (counterexample): `REQ_GET_BRIGHTNESS` is a valid, well-formed
request whose id is in the dispatch table, yet when the callback raises
a `ValueError` the reply is tagged `RSP_ERR_MALFORMED`, not
`RSP_ERR_SERVER` — the `except ValueError` handler catches the
callback's exception first, refuting the claim that any callback
exception yields `RSP_ERR_SERVER`. -/
theorem claim_C1_counterexample :
    Message.from_string "REQ_GET_BRIGHTNESS" =
      .ok ⟨.REQ_GET_BRIGHTNESS, []⟩ ∧
    dispatchSchema MsgId.REQ_GET_BRIGHTNESS = some [] ∧
    (Message.mk .REQ_GET_BRIGHTNESS []).validate_parameters [] = .ok () ∧
    (process_request (throwingCb PyErr.valueError) "REQ_GET_BRIGHTNESS").1 =
      (Message.from_parts .RSP_ERR_MALFORMED []).to_string ∧
    (Message.from_parts .RSP_ERR_MALFORMED []).to_string ≠
      (Message.from_parts .RSP_ERR_SERVER []).to_string := by
  refine ⟨rfl, rfl, rfl, rfl, ?_⟩
  decide

/-- C1 (amended): for every valid, well-formed request whose id is in
the dispatch table and whose branch invokes the callback, if the
callback raises any exception other than `ValueError`, the responder
still produces exactly one reply and that reply is tagged
`RSP_ERR_SERVER` (a `ValueError` from the callback yields
`RSP_ERR_MALFORMED` instead, see the counterexample). -/
theorem claim_C1_amended (e : PyErr) (req : String) (m : Message)
    (sch : List PyType)
    (he : e ≠ PyErr.valueError)
    (h1 : Message.from_string req = .ok m)
    (h2 : dispatchSchema m.id = some sch)
    (h3 : m.validate_parameters sch = .ok ())
    (h4 : invokesCallback m.id = true) :
    (process_request (throwingCb e) req).1 =
      (Message.from_parts .RSP_ERR_SERVER []).to_string ∧
    (process_request (throwingCb e) req).2 ≠ [] := by
  obtain ⟨ev, hd⟩ := dispatch_throwing e m sch h2 h3 h4
  have hcore : process_request_core (throwingCb e) req = (.error e, [ev]) :=
    (core_of_ok _ req m h1).trans hd
  rw [process_request_of_core_error _ req e [ev] he hcore]
  exact ⟨rfl, by simp⟩

/-- C1 (witness): the amended claim at the concrete request
`REQ_GET_BRIGHTNESS` with a callback raising a generic exception. -/
theorem claim_C1_witness :
    (PyErr.otherError "boom" ≠ PyErr.valueError) ∧
    (process_request (throwingCb (PyErr.otherError "boom"))
        "REQ_GET_BRIGHTNESS").1 =
      (Message.from_parts .RSP_ERR_SERVER []).to_string :=
  ⟨by decide, (claim_C1_amended (PyErr.otherError "boom") "REQ_GET_BRIGHTNESS"
    ⟨.REQ_GET_BRIGHTNESS, []⟩ [] (by decide) rfl rfl rfl rfl).1⟩

/-- C2 (counterexample): `publish_up_button_press_state_changed` takes
an argument, the argument `PyVal.str "not-a-bool"` is not of the
expected boolean type, yet the call performs no type check: it raises
no `TypeError` and goes on to send a message — refuting the claim that
every argument-taking `publish_*` method validates its argument types
eagerly. -/
theorem claim_C2_counterexample :
    isinstance (PyVal.str "not-a-bool") PyType.bool = false ∧
    PublishServer.publish_up_button_press_state_changed readyPub
        (PyVal.str "not-a-bool") =
      .ok { readyPub with
        sent := [(Message.from_parts .PUB_V3_BUTTON_UP_PRESSED []).to_string] } :=
  ⟨rfl, rfl⟩

/-- C2 (amended): exactly the four integer-carrying publish methods —
`publish_brightness_changed`, `publish_peripheral_connected`,
`publish_peripheral_disconnected`, `publish_battery_state_changed` —
validate their argument types eagerly, raising `TypeError` before any
send whenever an argument is not an `int`; the other argument-taking
publish methods (button press state, OLED state) perform no type
validation. -/
theorem claim_C2_amended (s : PubState) (v a b c d : PyVal)
    (hv : isinstance v PyType.int = false)
    (hbat : isinstance a PyType.int = false ∨ isinstance b PyType.int = false ∨
            isinstance c PyType.int = false ∨ isinstance d PyType.int = false) :
    PublishServer.publish_brightness_changed s v = .error .typeError ∧
    PublishServer.publish_peripheral_connected s v = .error .typeError ∧
    PublishServer.publish_peripheral_disconnected s v = .error .typeError ∧
    PublishServer.publish_battery_state_changed s a b c d = .error .typeError := by
  refine ⟨?_, ?_, ?_, ?_⟩
  · simp [PublishServer.publish_brightness_changed, PublishServer.check_type, hv]
  · simp [PublishServer.publish_peripheral_connected, PublishServer.check_type, hv]
  · simp [PublishServer.publish_peripheral_disconnected,
      PublishServer.check_type, hv]
  · cases hia : isinstance a PyType.int <;> cases hib : isinstance b PyType.int <;>
      cases hic : isinstance c PyType.int <;> cases hid : isinstance d PyType.int <;>
      simp_all [PublishServer.publish_battery_state_changed,
        PublishServer.check_type]

/-- C2 (witness): the amended claim at a concrete wrongly-typed
argument. -/
theorem claim_C2_witness :
    isinstance (PyVal.str "x") PyType.int = false ∧
    PublishServer.publish_brightness_changed readyPub (PyVal.str "x") =
      .error .typeError :=
  ⟨rfl, (claim_C2_amended readyPub (PyVal.str "x") (PyVal.str "x") (PyVal.int 1)
    (PyVal.int 1) (PyVal.int 1) rfl (Or.inl rfl)).1⟩

/-- C3: request processing is total — for every request string and
every callback behaviour, `_process_request` returns exactly one
encoded response message (an `RSP_*`-tagged encoding), and a worker
loop iteration with a pending request sends exactly that one reply and
leaves the continue flag set, so the loop never terminates because of a
bad request. -/
theorem claim_C3 (cb : CallbackClient) (req : String) :
    (∃ rsp : Message, isRspId rsp.id = true ∧
      (process_request cb req).1 = rsp.to_string) ∧
    thread_iteration cb true (some req) =
      (true, [(process_request cb req).1]) := by
  refine ⟨?_, rfl⟩
  rcases h : process_request_core cb req with ⟨res, evs⟩
  rcases res with e | r
  · rcases e with _ | _ | _ | _ | s
    · exact ⟨Message.from_parts .RSP_ERR_MALFORMED [], rfl,
        by unfold process_request; rw [h]⟩
    all_goals exact ⟨Message.from_parts .RSP_ERR_SERVER [], rfl,
        by unfold process_request; rw [h]⟩
  · exact ⟨r, core_rsp cb req r evs h, by unfold process_request; rw [h]⟩

/-- C4: for every request that decodes to a recognized (dispatched) id
but whose parameters fail the id's schema, the responder replies
`RSP_ERR_MALFORMED` and the callback is never invoked (the recorded
invocation list is empty). -/
theorem claim_C4 (cb : CallbackClient) (req : String) (m : Message)
    (sch : List PyType)
    (h1 : Message.from_string req = .ok m)
    (h2 : dispatchSchema m.id = some sch)
    (h3 : m.validate_parameters sch ≠ .ok ()) :
    process_request cb req =
      ((Message.from_parts .RSP_ERR_MALFORMED []).to_string, []) := by
  obtain ⟨mid, mparams⟩ := m
  unfold process_request
  rw [core_of_ok cb req _ h1]
  cases mid
  all_goals simp only [dispatchSchema, Option.some.injEq, reduceCtorEq] at h2
  all_goals subst h2
  all_goals simp only [dispatchRequest]
  all_goals rw [validate_error ⟨_, mparams⟩ _ h3]

/-- C4 (witness): the claim at the concrete malformed request
`REQ_SET_BRIGHTNESS|abc` (non-numeric parameter). -/
theorem claim_C4_witness :
    Message.from_string "REQ_SET_BRIGHTNESS|abc" =
      .ok ⟨.REQ_SET_BRIGHTNESS, ["abc"]⟩ ∧
    process_request okCb "REQ_SET_BRIGHTNESS|abc" =
      ((Message.from_parts .RSP_ERR_MALFORMED []).to_string, []) :=
  ⟨rfl, claim_C4 okCb "REQ_SET_BRIGHTNESS|abc" ⟨.REQ_SET_BRIGHTNESS, ["abc"]⟩
    [PyType.int] rfl rfl (fun h => Except.noConfusion h)⟩

/-- C5 (counterexample): before `start_listening` (socket handle
absent), a `publish_*` call with a wrongly-typed argument does raise an
error (`TypeError`), refuting the claim that every `publish_*` call in
that state returns without raising. -/
theorem claim_C5_counterexample :
    PublishServer.initState.zmq_socket = none ∧
    PublishServer.publish_brightness_changed PublishServer.initState
        (PyVal.str "abc") = .error .typeError :=
  ⟨rfl, rfl⟩

/-- C5 (amended): for every `publish_*` call whose arguments pass the
method's type checks, made while the socket handle is absent or
emitting is disabled, nothing is written to the wire and the call
returns without raising (the state, including the wire traffic, is
unchanged); a wrongly-typed argument still raises `TypeError` even in
that state (see the counterexample). -/
theorem claim_C5_amended (s : PubState) (c : PubCall)
    (hready : s.zmq_socket = none ∨ s.emit_messages = false)
    (ht : c.wellTyped = true) :
    runPubCall s c = .ok s :=
  runPubCall_wellTyped_not_ready s c hready ht

/-- C5 (witness): the amended claim at a concrete well-typed call on
the freshly-constructed publisher. -/
theorem claim_C5_witness :
    PublishServer.initState.zmq_socket = none ∧
    (PubCall.brightness_changed (PyVal.int 50)).wellTyped = true ∧
    runPubCall PublishServer.initState
        (PubCall.brightness_changed (PyVal.int 50)) =
      .ok PublishServer.initState :=
  ⟨rfl, rfl, claim_C5_amended PublishServer.initState
    (PubCall.brightness_changed (PyVal.int 50)) (Or.inl rfl) rfl⟩

/-- C6: once `stop_listening` has set the shutting-down flag, no
sequence of later operations ever clears it or adds wire traffic, and
on every reachable later state `_send_message` returns the state
unchanged (writes nothing to the socket). -/
theorem claim_C6 (s : PubState) (ops : List PubOp) :
    (applyPubOps (PublishServer.stop_listening s) ops).shutting_down = true ∧
    (applyPubOps (PublishServer.stop_listening s) ops).sent =
      (PublishServer.stop_listening s).sent ∧
    ∀ mid ps,
      PublishServer.send_message
          (applyPubOps (PublishServer.stop_listening s) ops) mid ps =
        applyPubOps (PublishServer.stop_listening s) ops := by
  obtain ⟨h1, h2⟩ := applyPubOps_shutting ops _ (stop_listening_shutting s).1
  exact ⟨h1, h2, send_message_shutting _ h1⟩

/-- C7: `stop_listening` is idempotent — for the publisher a second
call returns the same state and raises nothing (it is a total
function), for the responder a second call after a completed stop
returns the same state without error; and the publisher's
`stop_listening` is a no-op beyond setting the flag when the socket was
never opened. -/
theorem claim_C7 (q p : PubState) (r : ReqState) (b c : Bool)
    (hp : p.zmq_socket = none)
    (hrs : r.zmq_socket = some b) (hrc : r.zmq_context = some c) :
    PublishServer.stop_listening (PublishServer.stop_listening q) =
      PublishServer.stop_listening q ∧
    PublishServer.stop_listening p = { p with shutting_down := true } ∧
    ∃ r', RequestServer.stop_listening r = .ok r' ∧
      RequestServer.stop_listening r' = .ok r' := by
  refine ⟨?_, ?_, ?_⟩
  · unfold PublishServer.stop_listening
    cases hq : q.zmq_socket <;> simp [hq]
  · unfold PublishServer.stop_listening
    simp [hp]
  · refine ⟨⟨false, false, some false, some false⟩, ?_, rfl⟩
    unfold RequestServer.stop_listening
    cases ht : r.thread_alive <;> simp [hrs, hrc, ht]

/-- C7 (witness): the claim at concrete states — a started publisher,
the freshly-constructed publisher, and a started responder. -/
theorem claim_C7_witness :
    PublishServer.stop_listening (PublishServer.stop_listening readyPub) =
      PublishServer.stop_listening readyPub ∧
    PublishServer.stop_listening PublishServer.initState =
      { PublishServer.initState with shutting_down := true } ∧
    ∃ r', RequestServer.stop_listening
        (RequestServer.start_listening RequestServer.initState true) = .ok r' ∧
      RequestServer.stop_listening r' = .ok r' :=
  claim_C7 readyPub PublishServer.initState
    (RequestServer.start_listening RequestServer.initState true) true true
    rfl rfl rfl

/-- C8: a `REQ_SET_BRIGHTNESS` request with the single
integer-coercible parameter `50` makes the responder invoke the
callback's set-brightness action with the integer `50` (exactly one
recorded invocation) and reply `RSP_SET_BRIGHTNESS` carrying no
parameters. -/
theorem claim_C8 (cb : CallbackClient) (req : String)
    (hreq : Message.from_string req = .ok ⟨.REQ_SET_BRIGHTNESS, ["50"]⟩)
    (hcb : cb.on_request_set_brightness 50 = .ok ()) :
    process_request cb req =
      ((Message.from_parts .RSP_SET_BRIGHTNESS []).to_string,
       [CallEvent.setBrightness 50]) := by
  unfold process_request
  rw [core_of_ok cb req _ hreq]
  simp only [dispatchRequest]
  rw [show (Message.mk .REQ_SET_BRIGHTNESS ["50"]).validate_parameters
        [PyType.int] = .ok () from rfl]
  rw [show strToInt? "50" = some 50 from rfl]
  simp only [hcb]

/-- C8 (witness): the claim at the concrete wire string
`REQ_SET_BRIGHTNESS|50`. -/
theorem claim_C8_witness :
    process_request okCb "REQ_SET_BRIGHTNESS|50" =
      ((Message.from_parts .RSP_SET_BRIGHTNESS []).to_string,
       [CallEvent.setBrightness 50]) :=
  claim_C8 okCb "REQ_SET_BRIGHTNESS|50" rfl rfl

/-- C9: for every valid `REQ_GET_PERIPHERAL_ENABLED` request with one
integer-coercible parameter, the responder invokes the callback with
that integer and replies `RSP_GET_PERIPHERAL_ENABLED` with a single
parameter `int(enabled_bool is True)`, which is always 0 or 1 and is 1
exactly when the callback returned the boolean `True`. -/
theorem claim_C9 (cb : CallbackClient) (req : String) (p : String) (n : Int)
    (v : PyVal)
    (hreq : Message.from_string req = .ok ⟨.REQ_GET_PERIPHERAL_ENABLED, [p]⟩)
    (hp : strToInt? p = some n)
    (hcb : cb.on_request_get_peripheral_enabled n = .ok v) :
    process_request cb req =
      ((Message.from_parts .RSP_GET_PERIPHERAL_ENABLED
          [PyVal.int (if v = PyVal.bool true then 1 else 0)]).to_string,
       [CallEvent.getPeripheralEnabled n]) ∧
    ((if v = PyVal.bool true then (1 : Int) else 0) = 0 ∨
     (if v = PyVal.bool true then (1 : Int) else 0) = 1) ∧
    ((if v = PyVal.bool true then (1 : Int) else 0) = 1 ↔
      v = PyVal.bool true) := by
  refine ⟨?_, ?_, ?_⟩
  · unfold process_request
    rw [core_of_ok cb req _ hreq]
    simp only [dispatchRequest]
    have hv : (Message.mk .REQ_GET_PERIPHERAL_ENABLED [p]).validate_parameters
        [PyType.int] = .ok () := by
      simp [Message.validate_parameters, coercible, hp]
    rw [hv]
    simp only [hp, hcb]
  · split <;> simp
  · constructor
    · intro h
      by_contra hne
      simp [hne] at h
    · intro h; simp [h]

/-- C9 (witness): the claim at the concrete request
`REQ_GET_PERIPHERAL_ENABLED|7` with the callback returning `True`. -/
theorem claim_C9_witness :
    process_request okCb "REQ_GET_PERIPHERAL_ENABLED|7" =
      ((Message.from_parts .RSP_GET_PERIPHERAL_ENABLED
          [PyVal.int (if PyVal.bool true = PyVal.bool true then 1 else 0)]).to_string,
       [CallEvent.getPeripheralEnabled 7]) :=
  (claim_C9 okCb "REQ_GET_PERIPHERAL_ENABLED|7" "7" 7 (PyVal.bool true)
    rfl rfl rfl).1

/-- C10: calling the responder's `stop_listening` on the
freshly-constructed (never-started) instance raises `AttributeError`,
because the `_zmq_socket` attribute is only created inside
`start_listening`; the publisher's `stop_listening` on its
freshly-constructed instance, by contrast, is a safe no-op beyond
setting the shutting-down flag. -/
theorem claim_C10 :
    RequestServer.stop_listening RequestServer.initState =
      .error .attributeError ∧
    PublishServer.stop_listening PublishServer.initState =
      { PublishServer.initState with shutting_down := true } :=
  ⟨rfl, rfl⟩
